import Mathlib

set_option autoImplicit false

/-! Shallow embedding of scripts/benchmark.py and
scripts/statistical_analysis.py from the REST-vs-GraphQL experimentation
repository, together with theorems about the embedded definitions.

Python floats are modelled as rationals.  External libraries are modelled as
explicit oracle parameters: the requests library and the wall clock as a Net
value, scipy.stats, numpy's float sqrt and numpy's random generator as a Scipy
value.  Every theorem is quantified over those oracles, so it holds for every
behaviour the surrounding code can actually observe. -/

/- ===================== scripts/benchmark.py ===================== -/

/-- Result tuple of measure_request:
(response_time_ms, response_size_bytes, success, error_message). -/
structure MeasureResult where
  response_time_ms : ℚ
  response_size_bytes : ℕ
  success : Bool
  error_message : Option String
deriving DecidableEq

/-- What the single HTTP exchange attempted inside the try block of
measure_request does, as observed by the surrounding code: either a response
with a success status arrives (elapsed milliseconds, raw body bytes); or a
response arrives whose status makes raise_for_status throw (elapsed time when
the response arrived, a second elapsed-time reading taken in the except
handler, and the exception text produced by the requests library); or the
requests call itself throws - timeout or transport error - (elapsed time read
in the except handler, exception text). -/
inductive ExchangeOutcome
  | ok (elapsed : ℚ) (body : List ℕ)
  | httpError (elapsedAtResponse elapsedAtHandler : ℚ) (msg : String)
  | transportError (elapsed : ℚ) (msg : String)

/-- Oracle for the requests library and the wall clock.  exchange gives the
outcome of one HTTP exchange for a url, an HTTP method and an optional JSON
payload; valueErrorElapsed is the elapsed time measured by the except handler
when the ValueError raised for an unsupported method is caught (no request is
issued on that path, only the two clock reads happen). -/
structure Net where
  exchange : String → String → Option String → ExchangeOutcome
  valueErrorElapsed : ℚ

/-- Elapsed-time readings of an exchange are nonnegative, and the second clock
read in the except handler is not earlier than the first: time.time is read
after the request was dispatched. -/
def ExchangeOutcome.elapsedOk : ExchangeOutcome → Prop
  | .ok t _ => 0 ≤ t
  | .httpError t t' _ => 0 ≤ t ∧ t ≤ t'
  | .transportError t _ => 0 ≤ t

/-- The str of an exception raised by the requests library is never the empty
string (requests formats a human-readable cause into every exception). -/
def ExchangeOutcome.msgOk : ExchangeOutcome → Prop
  | .ok _ _ => True
  | .httpError _ _ m => m ≠ ""
  | .transportError _ m => m ≠ ""

/-- A well-formed network oracle: clocks are monotone and library exception
texts are non-empty. -/
def Net.WF (net : Net) : Prop :=
  (∀ u m p, (net.exchange u m p).elapsedOk ∧ (net.exchange u m p).msgOk) ∧
  0 ≤ net.valueErrorElapsed

/-- Text of the ValueError raised for a method other than GET and POST. -/
def unsupportedMsg (method : String) : String :=
  "Método HTTP não suportado: " ++ method

/-- measure_request: performs one HTTP exchange and measures elapsed time and
response size.  The try block dispatches a GET or POST (any other method
raises ValueError), computes the elapsed time, reads the body length, then
calls raise_for_status; the except-Exception handler catches every failure,
re-reads the clock and returns elapsed time, size 0, success false and the
exception text.  The catch-all handler is modelled by this function being
total: every path yields a MeasureResult tuple. -/
def measure_request (net : Net) (url method : String) (payload : Option String) :
    MeasureResult :=
  if method = "GET" ∨ method = "POST" then
    match net.exchange url method payload with
    | .ok t body => ⟨t, body.length, true, none⟩
    | .httpError _ t' msg => ⟨t', 0, false, some msg⟩
    | .transportError t msg => ⟨t, 0, false, some msg⟩
  else
    ⟨net.valueErrorElapsed, 0, false, some (unsupportedMsg method)⟩

/-- The two API kinds under comparison. -/
inductive ApiKind
  | rest
  | graphql
deriving DecidableEq

/-- api_type.upper(): the upper-cased label stored in every record. -/
def apiLabel : ApiKind → String
  | .rest => "REST"
  | .graphql => "GRAPHQL"

/-- One row of the dataset: the fields of class BenchmarkResult (the timestamp
column, which no claim touches, is elided). -/
structure BenchmarkRecord where
  api_type : String
  scenario : ℕ
  replication : ℕ
  response_time_ms : ℚ
  response_size_bytes : ℕ
  success : Bool
  error : Option String
deriving DecidableEq

/-- REPLICATIONS = 30 in the configuration block. -/
def REPLICATIONS : ℕ := 30

/-- range(1, 7): the six scenario ids, ascending. -/
def scenarioIds : List ℕ := [1, 2, 3, 4, 5, 6]

/-- The loop order of the measuring phase: 'rest' first, then 'graphql'. -/
def apiKinds : List ApiKind := [ApiKind.rest, ApiKind.graphql]

/-- Build the BenchmarkResult stored for one leaf of the measuring loop. -/
def mkRecord (api : ApiKind) (s r : ℕ) (m : MeasureResult) : BenchmarkRecord :=
  ⟨apiLabel api, s, r, m.response_time_ms, m.response_size_bytes, m.success,
    m.error_message⟩

/-- The records accumulated by the measuring phase of run_benchmark: for
api_type in ['rest', 'graphql'], for scenario_num in range(1, 7), for
replication in range(1, REPLICATIONS + 1), one record is appended whatever the
measurement outcome.  The composition of the scenario generator (with its
random parameters) and measure_request is abstracted as the oracle meas. -/
def measuringRecords (meas : ApiKind → ℕ → ℕ → MeasureResult) (R : ℕ) :
    List BenchmarkRecord :=
  apiKinds.flatMap fun api =>
    scenarioIds.flatMap fun s =>
      (List.range R).map fun i => mkRecord api s (i + 1) (meas api s (i + 1))

/-- The identifying triple of a record, as persisted. -/
def recordKey (r : BenchmarkRecord) : String × ℕ × ℕ :=
  (r.api_type, r.scenario, r.replication)

/-- The nested iteration order of the measuring phase, as a list of
(api label, scenario, replication) triples. -/
def nestedOrder (R : ℕ) : List (String × ℕ × ℕ) :=
  apiKinds.flatMap fun api =>
    scenarioIds.flatMap fun s =>
      (List.range R).map fun i => (apiLabel api, s, i + 1)

/-- Externally visible actions of a run, in order. -/
inductive Effect
  | healthProbe (api : ApiKind)
  | warmupProbe (api : ApiKind)
  | measureCall (api : ApiKind) (scenario replication : ℕ)
  | writeDataset (rows : ℕ)
deriving DecidableEq

/-- The probes one warm-up iteration issues.  The body of the warm-up loop is
a single try/except around both /health GET calls, REST first: the REST probe
is always issued, but when it raises, control jumps to the except handler and
the GraphQL probe of that iteration is never issued.  restRaises tells, per
iteration, whether the REST probe raises (a GraphQL probe that raises is also
caught but nothing follows it in the try block). -/
def warmupRound (restRaises : ℕ → Bool) (i : ℕ) : List Effect :=
  if restRaises i then [Effect.warmupProbe ApiKind.rest]
  else [Effect.warmupProbe ApiKind.rest, Effect.warmupProbe ApiKind.graphql]

/-- The warm-up loop: for _ in range(10), one try/except block probing both
APIs (see warmupRound), then a 0.5 s sleep. -/
def warmupTrace (restRaises : ℕ → Bool) : List Effect :=
  (List.range 10).flatMap (warmupRound restRaises)

/-- The effects of the measuring loop, mirroring measuringRecords. -/
def measuringTrace (R : ℕ) : List Effect :=
  apiKinds.flatMap fun api =>
    scenarioIds.flatMap fun s =>
      (List.range R).map fun i => Effect.measureCall api s (i + 1)

/-- Outcome of one run of run_benchmark. -/
structure RunResult where
  records : List BenchmarkRecord
  datasetWritten : Bool
  trace : List Effect
deriving DecidableEq

/-- run_benchmark: probes both APIs via check_api_health (abstracted as the
oracle health, since its value only depends on what the network answers);
returns early, without warming up, measuring or writing anything, if either
probe fails; otherwise warms up, runs the measuring loop and writes the full
record list to the dataset file once, at the end. -/
def run_benchmark (health : ApiKind → Bool)
    (meas : ApiKind → ℕ → ℕ → MeasureResult) (restRaises : ℕ → Bool) (R : ℕ) :
    RunResult :=
  let rest_ok := health ApiKind.rest
  let graphql_ok := health ApiKind.graphql
  if rest_ok = false then
    ⟨[], false, [Effect.healthProbe ApiKind.rest, Effect.healthProbe ApiKind.graphql]⟩
  else if graphql_ok = false then
    ⟨[], false, [Effect.healthProbe ApiKind.rest, Effect.healthProbe ApiKind.graphql]⟩
  else
    ⟨measuringRecords meas R, true,
      [Effect.healthProbe ApiKind.rest, Effect.healthProbe ApiKind.graphql]
        ++ warmupTrace restRaises ++ measuringTrace R
        ++ [Effect.writeDataset (measuringRecords meas R).length]⟩

/- ===================== scripts/statistical_analysis.py ===================== -/

/-- One row of the loaded dataset, restricted to the columns the analysis
reads: api_type, scenario, success, response_time_ms, response_size_bytes. -/
structure Row where
  api_type : String
  scenario : ℕ
  success : Bool
  response_time_ms : ℚ
  response_size_bytes : ℚ
deriving DecidableEq

/-- Oracle bundling the external numeric routines the analysis calls into:
scipy.stats.shapiro (statistic and p-value of one sample), scipy's Welch
ttest_ind with equal_var False and mannwhitneyu with two-sided alternative
(each returning statistic and p-value of two samples), numpy's float sqrt,
and numpy's random generator, exposed as the streams of raw draw indices that
np.random.choice consumes for the REST and the GraphQL resample of each
bootstrap iteration (iteration number, position in the resample). -/
structure Scipy where
  shapiro : List ℚ → ℚ × ℚ
  ttest_ind : List ℚ → List ℚ → ℚ × ℚ
  mannwhitneyu : List ℚ → List ℚ → ℚ × ℚ
  sqrt : ℚ → ℚ
  restIdx : ℕ → ℕ → ℕ
  gqlIdx : ℕ → ℕ → ℕ

/-- np.mean: sum over length (0 for the empty sample, where numpy yields nan;
no claim depends on the numerical value at that point, the empty case only
ever reaches a scipy call that raises). -/
def mean (l : List ℚ) : ℚ := l.sum / l.length

/-- np.var with ddof 1: sum of squared deviations over (n - 1). -/
def var1 (l : List ℚ) : ℚ :=
  (l.map fun v => (v - mean l) ^ 2).sum / ((l.length : ℚ) - 1)

/-- The argument of np.sqrt in the pooled standard deviation:
(var(rest) + var(graphql)) / 2, both with ddof 1. -/
def pooledVar (x y : List ℚ) : ℚ := (var1 x + var1 y) / 2

/-- Ascending insertion, used to model numpy's internal sorting. -/
def insertSorted (a : ℚ) : List ℚ → List ℚ
  | [] => [a]
  | b :: t => if a ≤ b then a :: b :: t else b :: insertSorted a t

/-- Ascending sort of a sample. -/
def sortAsc (l : List ℚ) : List ℚ := l.foldr insertSorted []

/-- np.median: middle element of the sorted sample, or the average of the two
middle elements for even length. -/
def median (l : List ℚ) : ℚ :=
  let s := sortAsc l
  if s.length = 0 then 0
  else if s.length % 2 = 1 then s.getD (s.length / 2) 0
  else (s.getD (s.length / 2 - 1) 0 + s.getD (s.length / 2) 0) / 2

/-- np.percentile with the default linear interpolation: for fractional rank
h = p / 100 * (n - 1) over the sorted sample, interpolate between the
neighbouring order statistics. -/
def percentile (l : List ℚ) (p : ℚ) : ℚ :=
  let s := sortAsc l
  let h : ℚ := p / 100 * ((s.length : ℚ) - 1)
  let i : ℕ := h.floor.toNat
  let lo := s.getD i 0
  let hi := s.getD (i + 1) lo
  lo + (h - (h.floor : ℚ)) * (hi - lo)

/-- np.random.choice(data, size=len(data), replace=True): len(data) draws,
each an element of data selected by the generator; the raw draw stream idx is
reduced modulo the sample size, which models the uniform support of each
draw. -/
def np_choice (data : List ℚ) (idx : ℕ → ℕ) : List ℚ :=
  (List.range data.length).map fun k => data.getD (idx k % data.length) 0

/-- test_normality: None below 3 observations, otherwise the Shapiro-Wilk
statistic and p-value of the sample capped to its first 5000 observations. -/
def test_normality (sc : Scipy) (data : List ℚ) : Option (ℚ × ℚ) :=
  if data.length < 3 then none
  else some (sc.shapiro (data.take 5000))

/-- The normality flag computed from a test_normality outcome, mirroring
the Python conditional expression (p > 0.05 if p else False): a missing
p-value is non-normal, and a p-value of exactly 0 takes the falsy branch,
which also yields False. -/
def pyNormal (sh : Option (ℚ × ℚ)) : Bool :=
  match sh with
  | none => false
  | some q => if q.2 = 0 then false else decide ((0.05 : ℚ) < q.2)

/-- Normality of a sample as the specification words it: the sample has at
least 3 observations and its Shapiro-Wilk p-value exceeds 0.05. -/
def specNormal (sc : Scipy) (data : List ℚ) : Prop :=
  3 ≤ data.length ∧ (0.05 : ℚ) < (sc.shapiro (data.take 5000)).2

instance (sc : Scipy) (data : List ℚ) : Decidable (specNormal sc data) := by
  unfold specNormal
  infer_instance

/-- scipy.stats.mannwhitneyu raises ValueError on an empty sample; the raised
exception is modelled as none. -/
def mannwhitneyuCall (sc : Scipy) (x y : List ℚ) : Option (String × ℚ × ℚ) :=
  if x = [] ∨ y = [] then none
  else some ("Mann-Whitney U", sc.mannwhitneyu x y)

/-- The test selection of perform_statistical_tests: Welch ttest_ind when both
normality flags hold, mannwhitneyu otherwise.  Yields the recorded test name
with the statistic and p-value, or none when the scipy call raises. -/
def chooseTest (sc : Scipy) (x y : List ℚ) : Option (String × ℚ × ℚ) :=
  if pyNormal (test_normality sc x) && pyNormal (test_normality sc y) then
    some ("t-test (Welch)", sc.ttest_ind x y)
  else
    mannwhitneyuCall sc x y

/-- n_bootstrap = 1000. -/
def n_bootstrap : ℕ := 1000

/-- The bootstrap differences list: for each of the n_bootstrap iterations,
resample both samples independently with replacement at their original sizes
and record mean(graphql resample) - mean(rest resample). -/
def bootstrap_differences (sc : Scipy) (x y : List ℚ) : List ℚ :=
  (List.range n_bootstrap).map fun it =>
    mean (np_choice y (sc.gqlIdx it)) - mean (np_choice x (sc.restIdx it))

/-- The results dict built by perform_statistical_tests for one metric. -/
structure TestResult where
  metric : String
  rest_mean : ℚ
  graphql_mean : ℚ
  rest_median : ℚ
  graphql_median : ℚ
  rest_std : ℚ
  graphql_std : ℚ
  rest_n : ℕ
  graphql_n : ℕ
  rest_normal : Bool
  graphql_normal : Bool
  rest_shapiro_p : Option ℚ
  graphql_shapiro_p : Option ℚ
  test_type : String
  test_statistic : ℚ
  p_value : ℚ
  ci_lower : ℚ
  ci_upper : ℚ
  mean_difference : ℚ
  effect_size : ℚ
deriving DecidableEq

/-- perform_statistical_tests: descriptive statistics, normality flags, the
selected hypothesis test, the 1000-iteration bootstrap confidence interval of
the mean difference, and the pooled-standard-deviation effect size (0 when the
pooled standard deviation is not positive).  none models the scipy exception
escaping the function. -/
def perform_statistical_tests (sc : Scipy) (rest_data graphql_data : List ℚ)
    (metric : String) : Option TestResult :=
  (chooseTest sc rest_data graphql_data).map fun t =>
    { metric := metric
      rest_mean := mean rest_data
      graphql_mean := mean graphql_data
      rest_median := median rest_data
      graphql_median := median graphql_data
      rest_std := sc.sqrt (var1 rest_data)
      graphql_std := sc.sqrt (var1 graphql_data)
      rest_n := rest_data.length
      graphql_n := graphql_data.length
      rest_normal := pyNormal (test_normality sc rest_data)
      graphql_normal := pyNormal (test_normality sc graphql_data)
      rest_shapiro_p := (test_normality sc rest_data).map Prod.snd
      graphql_shapiro_p := (test_normality sc graphql_data).map Prod.snd
      test_type := t.1
      test_statistic := t.2.1
      p_value := t.2.2
      ci_lower := percentile (bootstrap_differences sc rest_data graphql_data) 2.5
      ci_upper := percentile (bootstrap_differences sc rest_data graphql_data) 97.5
      mean_difference := mean graphql_data - mean rest_data
      effect_size :=
        if 0 < sc.sqrt (pooledVar rest_data graphql_data) then
          (mean graphql_data - mean rest_data) /
            sc.sqrt (pooledVar rest_data graphql_data)
        else 0 }

/-- The successful rows of one api_type for one scenario. -/
def scenarioRows (df : List Row) (api : String) (s : ℕ) : List Row :=
  df.filter fun r => r.api_type = api ∧ r.scenario = s ∧ r.success = true

/-- response_time_ms values of the successful rows of one api_type and one
scenario. -/
def timeSample (df : List Row) (api : String) (s : ℕ) : List ℚ :=
  (scenarioRows df api s).map fun r => r.response_time_ms

/-- response_size_bytes values of the successful rows of one api_type and one
scenario. -/
def sizeSample (df : List Row) (api : String) (s : ℕ) : List ℚ :=
  (scenarioRows df api s).map fun r => r.response_size_bytes

/-- response_time_ms values of all successful rows of one api_type. -/
def overallTime (df : List Row) (api : String) : List ℚ :=
  (df.filter fun r => r.api_type = api ∧ r.success = true).map
    fun r => r.response_time_ms

/-- response_size_bytes values of all successful rows of one api_type. -/
def overallSize (df : List Row) (api : String) : List ℚ :=
  (df.filter fun r => r.api_type = api ∧ r.success = true).map
    fun r => r.response_size_bytes

/-- Keys of the result document.  The Python dict keys overall_time,
overall_size, and the f-strings scenario_{n}_time, scenario_{n}_size are
modelled by this closed key type. -/
inductive ResKey
  | scenario_time (n : ℕ)
  | scenario_size (n : ℕ)
  | overall_time
  | overall_size
deriving DecidableEq

/-- The guard of the per-scenario loop body:
len(rest_data) > 0 and len(graphql_data) > 0, on the time samples. -/
def scenarioGate (df : List Row) (s : ℕ) : Bool :=
  decide (0 < (timeSample df "REST" s).length) &&
    decide (0 < (timeSample df "GRAPHQL" s).length)

/-- The entries one iteration of the analyze_by_scenario loop adds to the
result mapping: nothing when the guard fails, otherwise the time comparison
followed by the size comparison; none when a scipy exception escapes. -/
def scenarioEntries (sc : Scipy) (df : List Row) (s : ℕ) :
    Option (List (ResKey × TestResult)) :=
  if scenarioGate df s then
    (perform_statistical_tests sc (timeSample df "REST" s)
        (timeSample df "GRAPHQL" s) "response_time_ms").bind fun t =>
      (perform_statistical_tests sc (sizeSample df "REST" s)
          (sizeSample df "GRAPHQL" s) "response_size_bytes").map fun z =>
        [(ResKey.scenario_time s, t), (ResKey.scenario_size s, z)]
  else some []

/-- The loop of analyze_by_scenario over a scenario list. -/
def collectEntries (sc : Scipy) (df : List Row) :
    List ℕ → Option (List (ResKey × TestResult))
  | [] => some []
  | s :: rest =>
    (scenarioEntries sc df s).bind fun e =>
      (collectEntries sc df rest).map fun es => e ++ es

/-- analyze_by_scenario: for scenario in range(1, 7), compare the successful
response times and then the successful response sizes of the two api kinds,
skipping the scenario entirely when either time sample is empty. -/
def analyze_by_scenario (sc : Scipy) (df : List Row) :
    Option (List (ResKey × TestResult)) :=
  collectEntries sc df scenarioIds

/-- analyze_overall: the pooled comparisons, computed unconditionally - there
is no emptiness guard on this path. -/
def analyze_overall (sc : Scipy) (df : List Row) :
    Option (List (ResKey × TestResult)) :=
  (perform_statistical_tests sc (overallTime df "REST")
      (overallTime df "GRAPHQL") "response_time_ms").bind fun t =>
    (perform_statistical_tests sc (overallSize df "REST")
        (overallSize df "GRAPHQL") "response_size_bytes").map fun z =>
      [(ResKey.overall_time, t), (ResKey.overall_size, z)]

/- ===================== shared concrete instances ===================== -/

/-- A trivial network oracle: every exchange succeeds after 5 ms with a
two-byte body. -/
def net0 : Net := ⟨fun _ _ _ => ExchangeOutcome.ok 5 [3, 4], 0⟩

/-- A health oracle with both APIs down. -/
def health0 : ApiKind → Bool := fun _ => false

/-- A health oracle with both APIs up. -/
def health1 : ApiKind → Bool := fun _ => true

/-- A trivial measurement oracle: every measurement succeeds instantly. -/
def meas0 : ApiKind → ℕ → ℕ → MeasureResult := fun _ _ _ => ⟨0, 0, true, none⟩

/-- A trivial numeric oracle: every scipy statistic, p-value, square root and
raw random draw is 0. -/
def scipy0 : Scipy :=
  ⟨fun _ => (0, 0), fun _ _ => (0, 0), fun _ _ => (0, 0), fun _ => 0,
    fun _ _ => 0, fun _ _ => 0⟩

/-- A dataset with a single successful REST row for scenario 1. -/
def dfRestOnly : List Row := [⟨"REST", 1, true, 100, 50⟩]

/-- A dataset with a single successful GraphQL row for scenario 1. -/
def dfGqlOnly : List Row := [⟨"GRAPHQL", 1, true, 80, 40⟩]

/- ===================== orchestrator lemmas ===================== -/

/-- Projecting the measuring records to their identifying triples yields the
nested iteration order. -/
theorem measuring_map_key (meas : ApiKind → ℕ → ℕ → MeasureResult) (R : ℕ) :
    (measuringRecords meas R).map recordKey = nestedOrder R := by
  unfold measuringRecords nestedOrder
  simp only [List.map_flatMap, List.map_map]
  rfl

/-- The measuring phase accumulates exactly 2 * 6 * R records. -/
theorem measuring_length (meas : ApiKind → ℕ → ℕ → MeasureResult) (R : ℕ) :
    (measuringRecords meas R).length = 2 * 6 * R := by
  have h : (measuringRecords meas R).length = (nestedOrder R).length := by
    rw [← measuring_map_key meas R, List.length_map]
  rw [h]
  unfold nestedOrder apiKinds scenarioIds
  simp [List.flatMap_cons, List.flatMap_nil, List.length_append]
  omega

/-- The replication block of one (label, scenario) pair has no duplicate
triples. -/
theorem nodup_inner (lbl : String) (s R : ℕ) :
    (((List.range R).map fun i => (lbl, s, i + 1)) : List (String × ℕ × ℕ)).Nodup := by
  refine List.Nodup.map ?_ (List.nodup_range R)
  intro i j hij
  simpa using hij

/-- The block of one api label over a duplicate-free scenario list has no
duplicate triples. -/
theorem nodup_block (lbl : String) (R : ℕ) :
    ∀ ss : List ℕ, ss.Nodup →
      ((ss.flatMap fun s => (List.range R).map fun i => (lbl, s, i + 1)) :
        List (String × ℕ × ℕ)).Nodup := by
  intro ss
  induction ss with
  | nil => intro _; simp
  | cons s tl ih =>
    intro hnd
    rw [List.flatMap_cons]
    have hd := List.nodup_cons.mp hnd
    refine List.Nodup.append (nodup_inner lbl s R) (ih hd.2) ?_
    intro a ha hb
    obtain ⟨i, _, rfl⟩ := List.mem_map.mp ha
    obtain ⟨s', hs', ha'⟩ := List.mem_flatMap.mp hb
    obtain ⟨j, _, hj⟩ := List.mem_map.mp ha'
    have hss : s' = s := by
      have := congrArg (fun p : String × ℕ × ℕ => p.2.1) hj
      simpa using this
    exact hd.1 (hss ▸ hs')

/-- The nested iteration order has no duplicate triples. -/
theorem nodup_nestedOrder (R : ℕ) : (nestedOrder R).Nodup := by
  unfold nestedOrder apiKinds
  rw [List.flatMap_cons, List.flatMap_cons, List.flatMap_nil, List.append_nil]
  refine List.Nodup.append (nodup_block (apiLabel ApiKind.rest) R scenarioIds (by decide))
    (nodup_block (apiLabel ApiKind.graphql) R scenarioIds (by decide)) ?_
  intro a ha hb
  obtain ⟨s, _, ha'⟩ := List.mem_flatMap.mp ha
  obtain ⟨i, _, rfl⟩ := List.mem_map.mp ha'
  obtain ⟨s', _, hb'⟩ := List.mem_flatMap.mp hb
  obtain ⟨j, _, hj⟩ := List.mem_map.mp hb'
  have := congrArg (fun p : String × ℕ × ℕ => p.1) hj
  simp [apiLabel] at this

/-- A triple is in the nested iteration order exactly when its scenario id is
one of the six configured ones and its replication index lies in 1..R. -/
theorem mem_nestedOrder (R : ℕ) (api : ApiKind) (s rep : ℕ) :
    (apiLabel api, s, rep) ∈ nestedOrder R ↔
      s ∈ scenarioIds ∧ 1 ≤ rep ∧ rep ≤ R := by
  constructor
  · intro h
    unfold nestedOrder at h
    obtain ⟨a, _, h2⟩ := List.mem_flatMap.mp h
    obtain ⟨s', hs', h3⟩ := List.mem_flatMap.mp h2
    obtain ⟨i, hi, h4⟩ := List.mem_map.mp h3
    have hs : s' = s := by
      have := congrArg (fun p : String × ℕ × ℕ => p.2.1) h4
      simpa using this
    have hr : i + 1 = rep := by
      have := congrArg (fun p : String × ℕ × ℕ => p.2.2) h4
      simpa using this
    have hiR := List.mem_range.mp hi
    exact ⟨hs ▸ hs', by omega⟩
  · rintro ⟨hs, h1, h2⟩
    unfold nestedOrder
    refine List.mem_flatMap.mpr ⟨api, ?_, ?_⟩
    · cases api <;> simp [apiKinds]
    · refine List.mem_flatMap.mpr ⟨s, hs, ?_⟩
      refine List.mem_map.mpr ⟨rep - 1, List.mem_range.mpr (by omega), ?_⟩
      have h3 : rep - 1 + 1 = rep := by omega
      rw [h3]

/- ===================== claims C3, C4, C8 (orchestrator) ===================== -/

/-- C3: a run whose health checks pass accumulates exactly 2 * 6 * R records,
one for every (api kind, scenario, replication) triple whatever the
measurement outcome, in the fixed nested order REST before GraphQL, scenario
1..6 ascending, replication 1..R ascending, with no triple dropped (every
valid triple occurs) and none duplicated (the key sequence has no
repetition). -/
theorem c3_measuring_records (health : ApiKind → Bool)
    (meas : ApiKind → ℕ → ℕ → MeasureResult) (restRaises : ℕ → Bool) (R : ℕ)
    (h1 : health ApiKind.rest = true) (h2 : health ApiKind.graphql = true) :
    (run_benchmark health meas restRaises R).records = measuringRecords meas R ∧
    (run_benchmark health meas restRaises R).records.length = 2 * 6 * R ∧
    (run_benchmark health meas restRaises R).records.map recordKey = nestedOrder R ∧
    (nestedOrder R).Nodup ∧
    (∀ api s rep, (apiLabel api, s, rep) ∈ nestedOrder R ↔
      s ∈ scenarioIds ∧ 1 ≤ rep ∧ rep ≤ R) := by
  have hrec : (run_benchmark health meas restRaises R).records = measuringRecords meas R := by
    unfold run_benchmark
    simp [h1, h2]
  exact ⟨hrec, by rw [hrec]; exact measuring_length meas R,
    by rw [hrec]; exact measuring_map_key meas R,
    nodup_nestedOrder R, mem_nestedOrder R⟩

/-- A warm-up oracle under which no REST probe raises: the ordinary run. -/
def wr0 : ℕ → Bool := fun _ => false

/-- Witness for C3 at a concrete healthy run with R = 2. -/
theorem c3_measuring_records_witness :
    health1 ApiKind.rest = true ∧ health1 ApiKind.graphql = true ∧
    ((run_benchmark health1 meas0 wr0 2).records = measuringRecords meas0 2 ∧
     (run_benchmark health1 meas0 wr0 2).records.length = 2 * 6 * 2 ∧
     (run_benchmark health1 meas0 wr0 2).records.map recordKey = nestedOrder 2 ∧
     (nestedOrder 2).Nodup ∧
     (∀ api s rep, (apiLabel api, s, rep) ∈ nestedOrder 2 ↔
       s ∈ scenarioIds ∧ 1 ≤ rep ∧ rep ≤ 2)) :=
  ⟨rfl, rfl, c3_measuring_records health1 meas0 wr0 2 rfl rfl⟩

/-- C4: when either health probe fails, the run aborts with no records, no
dataset written, and nothing but the two health probes in its trace - the
warm-up and measuring phases are never reached. -/
theorem c4_health_abort (health : ApiKind → Bool)
    (meas : ApiKind → ℕ → ℕ → MeasureResult) (restRaises : ℕ → Bool) (R : ℕ)
    (h : health ApiKind.rest = false ∨ health ApiKind.graphql = false) :
    (run_benchmark health meas restRaises R).records = [] ∧
    (run_benchmark health meas restRaises R).datasetWritten = false ∧
    ∀ e ∈ (run_benchmark health meas restRaises R).trace,
      e = Effect.healthProbe ApiKind.rest ∨ e = Effect.healthProbe ApiKind.graphql := by
  unfold run_benchmark
  cases hr : health ApiKind.rest
  · refine ⟨by simp, by simp, ?_⟩
    intro e he
    simp at he
    rcases he with he | he
    · exact Or.inl he
    · exact Or.inr he
  · cases hg : health ApiKind.graphql
    · refine ⟨by simp, by simp, ?_⟩
      intro e he
      simp at he
      rcases he with he | he
      · exact Or.inl he
      · exact Or.inr he
    · rw [hr, hg] at h
      rcases h with h | h <;> exact absurd h (by decide)

/-- Witness for C4: both APIs down. -/
theorem c4_health_abort_witness :
    (health0 ApiKind.rest = false ∨ health0 ApiKind.graphql = false) ∧
    ((run_benchmark health0 meas0 wr0 REPLICATIONS).records = [] ∧
     (run_benchmark health0 meas0 wr0 REPLICATIONS).datasetWritten = false ∧
     ∀ e ∈ (run_benchmark health0 meas0 wr0 REPLICATIONS).trace,
       e = Effect.healthProbe ApiKind.rest ∨ e = Effect.healthProbe ApiKind.graphql) :=
  ⟨Or.inl rfl, c4_health_abort health0 meas0 wr0 REPLICATIONS (Or.inl rfl)⟩

/-- Recognises a warm-up liveness probe. -/
def isWarmupProbe : Effect → Bool
  | .warmupProbe _ => true
  | _ => false

/-- Recognises a measuring-phase request. -/
def isMeasureCall : Effect → Bool
  | .measureCall _ _ _ => true
  | _ => false

/-- Counting the warm-up probes over any iteration list: every iteration
issues exactly one REST probe; an iteration issues a GraphQL probe exactly
when its REST probe does not raise; no measuring request is ever issued; the
total probe count lies between one and two per iteration. -/
theorem warmup_counts (restRaises : ℕ → Bool) (l : List ℕ) :
    (l.flatMap (warmupRound restRaises)).countP
        (fun e => decide (e = Effect.warmupProbe ApiKind.rest)) = l.length ∧
    (l.flatMap (warmupRound restRaises)).countP
        (fun e => decide (e = Effect.warmupProbe ApiKind.graphql)) =
      l.countP (fun i => decide (restRaises i = false)) ∧
    (l.flatMap (warmupRound restRaises)).countP isMeasureCall = 0 ∧
    l.length ≤ (l.flatMap (warmupRound restRaises)).length ∧
    (l.flatMap (warmupRound restRaises)).length ≤ 2 * l.length := by
  have cR1 : ([Effect.warmupProbe ApiKind.rest] : List Effect).countP
      (fun e => decide (e = Effect.warmupProbe ApiKind.rest)) = 1 := by decide
  have cR2 : ([Effect.warmupProbe ApiKind.rest, Effect.warmupProbe ApiKind.graphql] :
      List Effect).countP (fun e => decide (e = Effect.warmupProbe ApiKind.rest)) = 1 := by
    decide
  have cG1 : ([Effect.warmupProbe ApiKind.rest] : List Effect).countP
      (fun e => decide (e = Effect.warmupProbe ApiKind.graphql)) = 0 := by decide
  have cG2 : ([Effect.warmupProbe ApiKind.rest, Effect.warmupProbe ApiKind.graphql] :
      List Effect).countP (fun e => decide (e = Effect.warmupProbe ApiKind.graphql)) = 1 := by
    decide
  have cM1 : ([Effect.warmupProbe ApiKind.rest] : List Effect).countP isMeasureCall = 0 := by
    decide
  have cM2 : ([Effect.warmupProbe ApiKind.rest, Effect.warmupProbe ApiKind.graphql] :
      List Effect).countP isMeasureCall = 0 := by decide
  induction l with
  | nil => exact ⟨rfl, rfl, rfl, Nat.le_refl 0, by simp⟩
  | cons i tl ih =>
    obtain ⟨ih1, ih2, ih3, ih4, ih5⟩ := ih
    rw [List.flatMap_cons]
    cases h : restRaises i
    · have hr : warmupRound restRaises i =
          [Effect.warmupProbe ApiKind.rest, Effect.warmupProbe ApiKind.graphql] := by
        simp [warmupRound, h]
      rw [hr]
      refine ⟨?_, ?_, ?_, ?_, ?_⟩
      · rw [List.countP_append, cR2, ih1, List.length_cons]
        omega
      · rw [List.countP_append, cG2, ih2,
          List.countP_cons_of_pos _ _ (by simp [h])]
        omega
      · rw [List.countP_append, cM2, ih3]
      · simp only [List.length_append, List.length_cons, List.length_nil]
        omega
      · simp only [List.length_append, List.length_cons, List.length_nil]
        omega
    · have hr : warmupRound restRaises i = [Effect.warmupProbe ApiKind.rest] := by
        simp [warmupRound, h]
      rw [hr]
      refine ⟨?_, ?_, ?_, ?_, ?_⟩
      · rw [List.countP_append, cR1, ih1, List.length_cons]
        omega
      · rw [List.countP_append, cG1, ih2,
          List.countP_cons_of_neg _ _ (by simp [h])]
        omega
      · rw [List.countP_append, cM1, ih3]
      · simp only [List.length_append, List.length_cons, List.length_nil]
        omega
      · simp only [List.length_append, List.length_cons, List.length_nil]
        omega

/-- Every effect of the warm-up phase is a liveness probe. -/
theorem warmup_all_probes (restRaises : ℕ → Bool) :
    ∀ e ∈ warmupTrace restRaises, isWarmupProbe e = true := by
  intro e he
  unfold warmupTrace at he
  obtain ⟨i, -, hmem⟩ := List.mem_flatMap.mp he
  unfold warmupRound at hmem
  by_cases h : restRaises i = true
  · rw [if_pos h] at hmem
    simp at hmem
    rw [hmem]
    rfl
  · rw [if_neg h] at hmem
    simp at hmem
    rcases hmem with h1 | h1 <;> (rw [h1]; rfl)

/-- C8 corrected: the warm-up phase runs exactly 10 iterations, each issuing
one discarded REST liveness probe (10 in total) and, only when that REST
probe does not raise inside the shared try/except, one discarded GraphQL
liveness probe - so the GraphQL probe count equals the number of iterations
whose REST probe did not raise, the total probe count lies between 10 and 20,
and in a run where no REST probe raises exactly 20 probes are issued.  The
phase consists of probes only, issues no measuring request and contributes no
record: the records of a completed run are exactly the measuring-phase
records. -/
theorem c8_warmup_phase (health : ApiKind → Bool)
    (meas : ApiKind → ℕ → ℕ → MeasureResult) (restRaises : ℕ → Bool) (R : ℕ)
    (h1 : health ApiKind.rest = true) (h2 : health ApiKind.graphql = true) :
    (warmupTrace restRaises).countP
      (fun e => decide (e = Effect.warmupProbe ApiKind.rest)) = 10 ∧
    (warmupTrace restRaises).countP
      (fun e => decide (e = Effect.warmupProbe ApiKind.graphql)) =
      (List.range 10).countP (fun i => decide (restRaises i = false)) ∧
    (warmupTrace restRaises).countP isWarmupProbe = (warmupTrace restRaises).length ∧
    10 ≤ (warmupTrace restRaises).length ∧
    (warmupTrace restRaises).length ≤ 20 ∧
    ((∀ i, restRaises i = false) →
      (warmupTrace restRaises).countP isWarmupProbe = 20) ∧
    (warmupTrace restRaises).countP isMeasureCall = 0 ∧
    (run_benchmark health meas restRaises R).records = measuringRecords meas R ∧
    (run_benchmark health meas restRaises R).trace =
      [Effect.healthProbe ApiKind.rest, Effect.healthProbe ApiKind.graphql]
        ++ warmupTrace restRaises ++ measuringTrace R
        ++ [Effect.writeDataset (measuringRecords meas R).length] := by
  obtain ⟨w1, w2, w3, w4, w5⟩ := warmup_counts restRaises (List.range 10)
  have hall : (warmupTrace restRaises).countP isWarmupProbe =
      (warmupTrace restRaises).length :=
    List.countP_eq_length.mpr (warmup_all_probes restRaises)
  refine ⟨?_, ?_, hall, ?_, ?_, ?_, ?_, ?_, ?_⟩
  · unfold warmupTrace
    rw [w1, List.length_range]
  · exact w2
  · unfold warmupTrace
    rw [List.length_range] at w4
    exact w4
  · unfold warmupTrace
    rw [List.length_range] at w5
    omega
  · intro hw
    rw [hall]
    unfold warmupTrace
    have hfun : warmupRound restRaises =
        fun _ => [Effect.warmupProbe ApiKind.rest, Effect.warmupProbe ApiKind.graphql] :=
      funext fun i => by simp [warmupRound, hw i]
    rw [hfun]
    decide
  · exact w3
  · unfold run_benchmark
    simp [h1, h2]
  · unfold run_benchmark
    simp [h1, h2]

/-- Witness for C8 at a concrete healthy run whose warm-up probes never
raise. -/
theorem c8_warmup_phase_witness :
    health1 ApiKind.rest = true ∧ health1 ApiKind.graphql = true ∧
    ((warmupTrace wr0).countP
       (fun e => decide (e = Effect.warmupProbe ApiKind.rest)) = 10 ∧
     (warmupTrace wr0).countP
       (fun e => decide (e = Effect.warmupProbe ApiKind.graphql)) =
       (List.range 10).countP (fun i => decide (wr0 i = false)) ∧
     (warmupTrace wr0).countP isWarmupProbe = (warmupTrace wr0).length ∧
     10 ≤ (warmupTrace wr0).length ∧
     (warmupTrace wr0).length ≤ 20 ∧
     ((∀ i, wr0 i = false) → (warmupTrace wr0).countP isWarmupProbe = 20) ∧
     (warmupTrace wr0).countP isMeasureCall = 0 ∧
     (run_benchmark health1 meas0 wr0 1).records = measuringRecords meas0 1 ∧
     (run_benchmark health1 meas0 wr0 1).trace =
       [Effect.healthProbe ApiKind.rest, Effect.healthProbe ApiKind.graphql]
         ++ warmupTrace wr0 ++ measuringTrace 1
         ++ [Effect.writeDataset (measuringRecords meas0 1).length]) :=
  ⟨rfl, rfl, c8_warmup_phase health1 meas0 wr0 1 rfl rfl⟩

/-- C8 counterexample: in a run where no warm-up probe raises - the ordinary
case the source permits - the warm-up phase issues 20 liveness probes, not 10
as claimed: the loop has 10 iterations but probes both API kinds per
iteration. -/
theorem c8_warmup_counterexample :
    (warmupTrace wr0).countP isWarmupProbe = 20 ∧
    (warmupTrace wr0).countP isWarmupProbe ≠ 10 := by
  decide

/- ===================== claims C5, C9 (measurement primitive) ===================== -/

/-- C5: under a well-formed network oracle, every failing invocation of
measure_request (non-success HTTP status, transport error or timeout) returns
success false, size 0, a non-empty error message and the elapsed time read
when the failure was handled (hence nonnegative); every succeeding invocation
returns the byte length of the raw response body as its size. -/
theorem c5_measure_failure (net : Net) (hw : Net.WF net) (url method : String)
    (payload : Option String) (hm : method = "GET" ∨ method = "POST") :
    measure_request net url method payload =
      (match net.exchange url method payload with
       | .ok t body => ⟨t, body.length, true, none⟩
       | .httpError _ t' msg => ⟨t', 0, false, some msg⟩
       | .transportError t msg => ⟨t, 0, false, some msg⟩) ∧
    0 ≤ (measure_request net url method payload).response_time_ms ∧
    ((measure_request net url method payload).success = false →
      (measure_request net url method payload).response_size_bytes = 0 ∧
      ∃ s, (measure_request net url method payload).error_message = some s ∧ s ≠ "") ∧
    ((measure_request net url method payload).success = true →
      ∃ t body, net.exchange url method payload = ExchangeOutcome.ok t body ∧
        (measure_request net url method payload).response_size_bytes = body.length ∧
        (measure_request net url method payload).error_message = none) := by
  obtain ⟨hnet, -⟩ := hw
  obtain ⟨helapsed, hmsg⟩ := hnet url method payload
  unfold measure_request
  rw [if_pos hm]
  cases hx : net.exchange url method payload with
  | ok t body =>
    rw [hx] at helapsed
    refine ⟨rfl, ?_, ?_, ?_⟩
    · exact helapsed
    · intro h
      simp at h
    · intro _
      exact ⟨t, body, rfl, rfl, rfl⟩
  | httpError t t' msg =>
    rw [hx] at helapsed hmsg
    refine ⟨rfl, ?_, ?_, ?_⟩
    · exact le_trans helapsed.1 helapsed.2
    · intro _
      exact ⟨rfl, msg, rfl, hmsg⟩
    · intro h
      simp at h
  | transportError t msg =>
    rw [hx] at helapsed hmsg
    refine ⟨rfl, ?_, ?_, ?_⟩
    · exact helapsed
    · intro _
      exact ⟨rfl, msg, rfl, hmsg⟩
    · intro h
      simp at h

/-- Witness for C5: a concrete well-formed oracle and a GET exchange. -/
theorem c5_measure_failure_witness :
    Net.WF net0 ∧ ("GET" = "GET" ∨ "GET" = "POST") ∧
    (measure_request net0 "http://localhost:8000/api/users" "GET" none =
      (match net0.exchange "http://localhost:8000/api/users" "GET" none with
       | .ok t body => ⟨t, body.length, true, none⟩
       | .httpError _ t' msg => ⟨t', 0, false, some msg⟩
       | .transportError t msg => ⟨t, 0, false, some msg⟩) ∧
     0 ≤ (measure_request net0 "http://localhost:8000/api/users" "GET" none).response_time_ms ∧
     ((measure_request net0 "http://localhost:8000/api/users" "GET" none).success = false →
       (measure_request net0 "http://localhost:8000/api/users" "GET" none).response_size_bytes = 0 ∧
       ∃ s, (measure_request net0 "http://localhost:8000/api/users" "GET" none).error_message = some s ∧ s ≠ "") ∧
     ((measure_request net0 "http://localhost:8000/api/users" "GET" none).success = true →
       ∃ t body, net0.exchange "http://localhost:8000/api/users" "GET" none = ExchangeOutcome.ok t body ∧
         (measure_request net0 "http://localhost:8000/api/users" "GET" none).response_size_bytes = body.length ∧
         (measure_request net0 "http://localhost:8000/api/users" "GET" none).error_message = none)) :=
  have hwf : Net.WF net0 := by
    refine ⟨fun u m p => ⟨?_, ?_⟩, ?_⟩
    · show (0 : ℚ) ≤ 5
      norm_num
    · show True
      trivial
    · show (0 : ℚ) ≤ 0
      norm_num
  ⟨hwf, Or.inl rfl,
    c5_measure_failure net0 hwf "http://localhost:8000/api/users" "GET" none (Or.inl rfl)⟩

/-- C9: measure_request absorbs an unsupported HTTP method: the ValueError
raised inside the try block is caught by the except-all handler, so the call
returns a failed measurement (elapsed time of the handler, size 0, success
false, the ValueError text as message) instead of propagating.  Totality over
every method, payload and network behaviour is carried by the return type of
the embedded definition, which mirrors the catch-all structure of the
source. -/
theorem c9_unsupported_method (net : Net) (url method : String)
    (payload : Option String) (h1 : method ≠ "GET") (h2 : method ≠ "POST") :
    measure_request net url method payload =
      ⟨net.valueErrorElapsed, 0, false, some (unsupportedMsg method)⟩ := by
  unfold measure_request
  rw [if_neg]
  rintro (h | h)
  · exact h1 h
  · exact h2 h

/-- Witness for C9: a PUT request is absorbed as a failure. -/
theorem c9_unsupported_method_witness :
    ("PUT" : String) ≠ "GET" ∧ ("PUT" : String) ≠ "POST" ∧
    measure_request net0 "http://localhost:8000/api/users" "PUT" none =
      ⟨net0.valueErrorElapsed, 0, false, some (unsupportedMsg "PUT")⟩ :=
  ⟨by decide, by decide,
    c9_unsupported_method net0 "http://localhost:8000/api/users" "PUT" none
      (by decide) (by decide)⟩

/- ===================== analysis lemmas ===================== -/

/-- A sample below 3 observations always gets normality flag False. -/
theorem pyNormal_short (sc : Scipy) (d : List ℚ) (h : d.length < 3) :
    pyNormal (test_normality sc d) = false := by
  simp [test_normality, h, pyNormal]

/-- The Python normality flag agrees with the specification's wording of
normality: at least 3 observations and a Shapiro-Wilk p-value above 0.05
(the falsy branch taken at p = 0 coincides, since 0 does not exceed 0.05). -/
theorem pyNormal_iff (sc : Scipy) (d : List ℚ) :
    pyNormal (test_normality sc d) = true ↔ specNormal sc d := by
  unfold pyNormal test_normality specNormal
  by_cases h3 : d.length < 3
  · simp [h3]
  · simp [h3]
    intro h5
    constructor
    · intro _
      omega
    · intro _ h0
      rw [h0] at h5
      norm_num at h5

/-- Under two non-empty samples, the test selection always yields a pair:
Welch when both normality flags hold, Mann-Whitney otherwise. -/
theorem chooseTest_of_nonempty (sc : Scipy) {x y : List ℚ}
    (hx : x ≠ []) (hy : y ≠ []) :
    chooseTest sc x y =
      if pyNormal (test_normality sc x) && pyNormal (test_normality sc y) then
        some ("t-test (Welch)", sc.ttest_ind x y)
      else some ("Mann-Whitney U", sc.mannwhitneyu x y) := by
  unfold chooseTest mannwhitneyuCall
  cases hb : pyNormal (test_normality sc x) && pyNormal (test_normality sc y) <;>
    simp [hb, hx, hy]

/-- perform_statistical_tests never raises on two non-empty samples. -/
theorem perform_some (sc : Scipy) (met : String) {x y : List ℚ}
    (hx : x ≠ []) (hy : y ≠ []) :
    ∃ res, perform_statistical_tests sc x y met = some res := by
  unfold perform_statistical_tests
  rw [chooseTest_of_nonempty sc hx hy]
  cases hb : pyNormal (test_normality sc x) && pyNormal (test_normality sc y) <;>
    simp [hb]

/-- perform_statistical_tests raises (the Mann-Whitney ValueError) whenever
either sample is empty: an empty sample cannot be normal, so the Mann-Whitney
branch is taken and scipy rejects the empty input. -/
theorem perform_none_of_empty (sc : Scipy) (met : String) {x y : List ℚ}
    (h : x = [] ∨ y = []) :
    perform_statistical_tests sc x y met = none := by
  have hb : (pyNormal (test_normality sc x) && pyNormal (test_normality sc y)) = false := by
    rcases h with h | h
    · have hs := pyNormal_short sc x (by rw [h]; simp)
      simp [hs]
    · have hs := pyNormal_short sc y (by rw [h]; simp)
      simp [hs]
  unfold perform_statistical_tests chooseTest mannwhitneyuCall
  rw [hb]
  simp [if_pos h]

/-- The size sample of a scenario has the same length as its time sample:
both project the same filtered successful rows. -/
theorem sizeSample_length (df : List Row) (api : String) (s : ℕ) :
    (sizeSample df api s).length = (timeSample df api s).length := by
  simp [sizeSample, timeSample]

/-- The per-scenario guard holds exactly when both time samples are
non-empty. -/
theorem scenarioGate_iff (df : List Row) (s : ℕ) :
    scenarioGate df s = true ↔
      timeSample df "REST" s ≠ [] ∧ timeSample df "GRAPHQL" s ≠ [] := by
  simp [scenarioGate, List.length_pos]

/-- The keys one loop iteration of analyze_by_scenario contributes: the time
and the size key when the guard holds, nothing otherwise; never an
exception. -/
theorem scenarioEntries_keys (sc : Scipy) (df : List Row) (s : ℕ) :
    ((scenarioEntries sc df s).map fun l => l.map Prod.fst) =
      some (if scenarioGate df s then
        [ResKey.scenario_time s, ResKey.scenario_size s] else []) := by
  unfold scenarioEntries
  by_cases hg : scenarioGate df s = true
  · obtain ⟨h1, h2⟩ := (scenarioGate_iff df s).mp hg
    have h3 : sizeSample df "REST" s ≠ [] := by
      rw [← List.length_pos, sizeSample_length]
      rw [← List.length_pos] at h1
      exact h1
    have h4 : sizeSample df "GRAPHQL" s ≠ [] := by
      rw [← List.length_pos, sizeSample_length]
      rw [← List.length_pos] at h2
      exact h2
    obtain ⟨t, ht⟩ := perform_some sc "response_time_ms" h1 h2
    obtain ⟨z, hz⟩ := perform_some sc "response_size_bytes" h3 h4
    simp [hg, ht, hz]
  · have hg' : scenarioGate df s = false := by
      cases hgg : scenarioGate df s
      · rfl
      · exact absurd hgg hg
    simp [hg']

/-- The keys the analyze_by_scenario loop accumulates over any scenario list:
per scenario, both keys under the guard, neither otherwise; the loop never
raises. -/
theorem collectEntries_keys (sc : Scipy) (df : List Row) (l : List ℕ) :
    ((collectEntries sc df l).map fun m => m.map Prod.fst) =
      some (l.flatMap fun s =>
        if scenarioGate df s then
          [ResKey.scenario_time s, ResKey.scenario_size s] else []) := by
  induction l with
  | nil => rfl
  | cons s tl ih =>
    obtain ⟨e, he, hke⟩ := Option.map_eq_some'.mp (scenarioEntries_keys sc df s)
    obtain ⟨m, hm, hkm⟩ := Option.map_eq_some'.mp ih
    rw [List.flatMap_cons]
    unfold collectEntries
    rw [he, hm]
    simp [hke, hkm]

/-- A time key occurs among the accumulated keys exactly for a configured
scenario whose guard holds. -/
theorem time_key_mem (df : List Row) (n : ℕ) :
    (ResKey.scenario_time n ∈ scenarioIds.flatMap fun s =>
      if scenarioGate df s then
        [ResKey.scenario_time s, ResKey.scenario_size s] else []) ↔
      n ∈ scenarioIds ∧ scenarioGate df n = true := by
  simp only [List.mem_flatMap]
  constructor
  · rintro ⟨s, hs, hmem⟩
    by_cases hg : scenarioGate df s = true
    · rw [if_pos hg] at hmem
      simp at hmem
      exact hmem ▸ ⟨hs, hg⟩
    · have hg' : scenarioGate df s = false := by
        cases hgg : scenarioGate df s
        · rfl
        · exact absurd hgg hg
      rw [hg'] at hmem
      simp at hmem
  · rintro ⟨hn, hg⟩
    refine ⟨n, hn, ?_⟩
    rw [if_pos hg]
    simp

/-- A size key occurs among the accumulated keys exactly for a configured
scenario whose guard holds. -/
theorem size_key_mem (df : List Row) (n : ℕ) :
    (ResKey.scenario_size n ∈ scenarioIds.flatMap fun s =>
      if scenarioGate df s then
        [ResKey.scenario_time s, ResKey.scenario_size s] else []) ↔
      n ∈ scenarioIds ∧ scenarioGate df n = true := by
  simp only [List.mem_flatMap]
  constructor
  · rintro ⟨s, hs, hmem⟩
    by_cases hg : scenarioGate df s = true
    · rw [if_pos hg] at hmem
      simp at hmem
      exact hmem ▸ ⟨hs, hg⟩
    · have hg' : scenarioGate df s = false := by
        cases hgg : scenarioGate df s
        · rfl
        · exact absurd hgg hg
      rw [hg'] at hmem
      simp at hmem
  · rintro ⟨hn, hg⟩
    refine ⟨n, hn, ?_⟩
    rw [if_pos hg]
    simp

/-- A bootstrap resample has the original sample size. -/
theorem np_choice_length (d : List ℚ) (f : ℕ → ℕ) :
    (np_choice d f).length = d.length := by
  simp [np_choice]

/-- Every element of a bootstrap resample of a non-empty sample is an element
of that sample: drawing with replacement never leaves the sample. -/
theorem np_choice_subset {d : List ℚ} (hd : d ≠ []) (f : ℕ → ℕ) :
    np_choice d f ⊆ d := by
  intro v hv
  unfold np_choice at hv
  obtain ⟨k, -, hk⟩ := List.mem_map.mp hv
  have hlen : 0 < d.length := List.length_pos.mpr hd
  have hmod : f k % d.length < d.length := Nat.mod_lt _ hlen
  rw [← hk, List.getD_eq_getElem?_getD, List.getElem?_eq_getElem hmod,
    Option.getD_some]
  exact List.getElem_mem hmod

/- ===================== claims C2, C6, C7 (one comparison) ===================== -/

/-- C2: on two non-empty samples the test selection is deterministic in the
normality outcomes: when both samples are normal in the specification's sense
(at least 3 observations and Shapiro-Wilk p-value above 0.05; a smaller
sample is non-normal by default) the Welch unequal-variance t-test is run and
recorded as t-test (Welch); in every other case the Mann-Whitney U test is run
and recorded as Mann-Whitney U. -/
theorem c2_test_selection (sc : Scipy) (x y : List ℚ) (met : String)
    (hx : x ≠ []) (hy : y ≠ []) :
    ∃ res, perform_statistical_tests sc x y met = some res ∧
      res.test_type = (if specNormal sc x ∧ specNormal sc y then "t-test (Welch)"
        else "Mann-Whitney U") ∧
      res.test_statistic = (if specNormal sc x ∧ specNormal sc y then
        (sc.ttest_ind x y).1 else (sc.mannwhitneyu x y).1) ∧
      res.p_value = (if specNormal sc x ∧ specNormal sc y then
        (sc.ttest_ind x y).2 else (sc.mannwhitneyu x y).2) := by
  unfold perform_statistical_tests
  rw [chooseTest_of_nonempty sc hx hy]
  by_cases hn : specNormal sc x ∧ specNormal sc y
  · have hb : (pyNormal (test_normality sc x) && pyNormal (test_normality sc y)) = true := by
      rw [Bool.and_eq_true, pyNormal_iff, pyNormal_iff]
      exact hn
    rw [if_pos hb]
    exact ⟨_, rfl, by rw [if_pos hn], by rw [if_pos hn], by rw [if_pos hn]⟩
  · have hb : ¬ (pyNormal (test_normality sc x) && pyNormal (test_normality sc y)) = true := by
      rw [Bool.and_eq_true, pyNormal_iff, pyNormal_iff]
      exact hn
    rw [if_neg hb]
    exact ⟨_, rfl, by rw [if_neg hn], by rw [if_neg hn], by rw [if_neg hn]⟩

/-- Witness for C2 at two concrete singleton samples. -/
theorem c2_test_selection_witness :
    ([(1 : ℚ)] ≠ []) ∧ ([(2 : ℚ)] ≠ []) ∧
    (∃ res, perform_statistical_tests scipy0 [(1 : ℚ)] [(2 : ℚ)] "response_time_ms" = some res ∧
      res.test_type = (if specNormal scipy0 [(1 : ℚ)] ∧ specNormal scipy0 [(2 : ℚ)] then
        "t-test (Welch)" else "Mann-Whitney U") ∧
      res.test_statistic = (if specNormal scipy0 [(1 : ℚ)] ∧ specNormal scipy0 [(2 : ℚ)] then
        (scipy0.ttest_ind [(1 : ℚ)] [(2 : ℚ)]).1 else (scipy0.mannwhitneyu [(1 : ℚ)] [(2 : ℚ)]).1) ∧
      res.p_value = (if specNormal scipy0 [(1 : ℚ)] ∧ specNormal scipy0 [(2 : ℚ)] then
        (scipy0.ttest_ind [(1 : ℚ)] [(2 : ℚ)]).2 else (scipy0.mannwhitneyu [(1 : ℚ)] [(2 : ℚ)]).2)) :=
  ⟨by decide, by decide,
    c2_test_selection scipy0 [(1 : ℚ)] [(2 : ℚ)] "response_time_ms" (by decide) (by decide)⟩

/-- C6: the reported effect size is the standardized mean difference
(mean(GraphQL) - mean(REST)) divided by the square root of the average of the
two ddof-1 sample variances, and is exactly 0 whenever that pooled standard
deviation is zero; in particular comparing any sample with itself (identical
samples, so also identical constants) reports effect size 0.  numpy's float
sqrt is abstracted as the nonnegative oracle function sc.sqrt. -/
theorem c6_effect_size (sc : Scipy) (x y : List ℚ) (met : String)
    (hx : x ≠ []) (hy : y ≠ []) (hs : ∀ q, 0 ≤ sc.sqrt q) :
    ∃ res, perform_statistical_tests sc x y met = some res ∧
      res.effect_size = (if sc.sqrt (pooledVar x y) = 0 then 0
        else (mean y - mean x) / sc.sqrt (pooledVar x y)) ∧
      (perform_statistical_tests sc x x met).map TestResult.effect_size = some 0 := by
  have hself : (perform_statistical_tests sc x x met).map TestResult.effect_size = some 0 := by
    unfold perform_statistical_tests
    rw [chooseTest_of_nonempty sc hx hx]
    by_cases hb : (pyNormal (test_normality sc x) && pyNormal (test_normality sc x)) = true
    · rw [if_pos hb]
      simp [sub_self, zero_div]
    · rw [if_neg hb]
      simp [sub_self, zero_div]
  have hfield : (if 0 < sc.sqrt (pooledVar x y) then
      (mean y - mean x) / sc.sqrt (pooledVar x y) else 0) =
      (if sc.sqrt (pooledVar x y) = 0 then 0
        else (mean y - mean x) / sc.sqrt (pooledVar x y)) := by
    rcases (hs (pooledVar x y)).lt_or_eq with hpos | heq
    · rw [if_pos hpos, if_neg (ne_of_gt hpos)]
    · rw [← heq, if_neg (lt_irrefl (0 : ℚ)), if_pos rfl]
  unfold perform_statistical_tests
  rw [chooseTest_of_nonempty sc hx hy]
  by_cases hb : (pyNormal (test_normality sc x) && pyNormal (test_normality sc y)) = true
  · rw [if_pos hb]
    exact ⟨_, rfl, hfield, hself⟩
  · rw [if_neg hb]
    exact ⟨_, rfl, hfield, hself⟩

/-- Witness for C6 at two concrete singleton samples and the zero sqrt
oracle. -/
theorem c6_effect_size_witness :
    ([(1 : ℚ)] ≠ []) ∧ ([(2 : ℚ)] ≠ []) ∧ (∀ q, 0 ≤ scipy0.sqrt q) ∧
    (∃ res, perform_statistical_tests scipy0 [(1 : ℚ)] [(2 : ℚ)] "response_size_bytes" = some res ∧
      res.effect_size = (if scipy0.sqrt (pooledVar [(1 : ℚ)] [(2 : ℚ)]) = 0 then 0
        else (mean [(2 : ℚ)] - mean [(1 : ℚ)]) / scipy0.sqrt (pooledVar [(1 : ℚ)] [(2 : ℚ)])) ∧
      (perform_statistical_tests scipy0 [(1 : ℚ)] [(1 : ℚ)] "response_size_bytes").map
        TestResult.effect_size = some 0) :=
  ⟨by decide, by decide, fun _ => le_refl 0,
    c6_effect_size scipy0 [(1 : ℚ)] [(2 : ℚ)] "response_size_bytes" (by decide) (by decide)
      (fun _ => le_refl 0)⟩

/-- C7: the confidence interval is a 1000-iteration bootstrap: the recorded
differences list has length n_bootstrap = 1000, each entry is
mean(GraphQL resample) - mean(REST resample) where each resample is drawn
with replacement from its own sample at the original size, the reported
bounds are the 2.5th and 97.5th percentiles of those differences, and the
reported mean_difference is mean(GraphQL) - mean(REST) on the original
samples. -/
theorem c7_bootstrap_ci (sc : Scipy) (x y : List ℚ) (met : String)
    (hx : x ≠ []) (hy : y ≠ []) :
    ∃ res, perform_statistical_tests sc x y met = some res ∧
      res.ci_lower = percentile (bootstrap_differences sc x y) 2.5 ∧
      res.ci_upper = percentile (bootstrap_differences sc x y) 97.5 ∧
      res.mean_difference = mean y - mean x ∧
      (bootstrap_differences sc x y).length = n_bootstrap ∧
      n_bootstrap = 1000 ∧
      (∀ it : ℕ,
        (np_choice x (sc.restIdx it)).length = x.length ∧
        (np_choice y (sc.gqlIdx it)).length = y.length ∧
        np_choice x (sc.restIdx it) ⊆ x ∧
        np_choice y (sc.gqlIdx it) ⊆ y) ∧
      bootstrap_differences sc x y = (List.range n_bootstrap).map fun it =>
        mean (np_choice y (sc.gqlIdx it)) - mean (np_choice x (sc.restIdx it)) := by
  have hlen : (bootstrap_differences sc x y).length = n_bootstrap := by
    simp [bootstrap_differences]
  have hres : ∀ it : ℕ,
      (np_choice x (sc.restIdx it)).length = x.length ∧
      (np_choice y (sc.gqlIdx it)).length = y.length ∧
      np_choice x (sc.restIdx it) ⊆ x ∧
      np_choice y (sc.gqlIdx it) ⊆ y :=
    fun it => ⟨np_choice_length x (sc.restIdx it), np_choice_length y (sc.gqlIdx it),
      np_choice_subset hx (sc.restIdx it), np_choice_subset hy (sc.gqlIdx it)⟩
  unfold perform_statistical_tests
  rw [chooseTest_of_nonempty sc hx hy]
  by_cases hb : (pyNormal (test_normality sc x) && pyNormal (test_normality sc y)) = true
  · rw [if_pos hb]
    exact ⟨_, rfl, rfl, rfl, rfl, hlen, rfl, hres, rfl⟩
  · rw [if_neg hb]
    exact ⟨_, rfl, rfl, rfl, rfl, hlen, rfl, hres, rfl⟩

/-- Witness for C7 at two concrete singleton samples. -/
theorem c7_bootstrap_ci_witness :
    ([(1 : ℚ)] ≠ []) ∧ ([(2 : ℚ)] ≠ []) ∧
    (∃ res, perform_statistical_tests scipy0 [(1 : ℚ)] [(2 : ℚ)] "response_time_ms" = some res ∧
      res.ci_lower = percentile (bootstrap_differences scipy0 [(1 : ℚ)] [(2 : ℚ)]) 2.5 ∧
      res.ci_upper = percentile (bootstrap_differences scipy0 [(1 : ℚ)] [(2 : ℚ)]) 97.5 ∧
      res.mean_difference = mean [(2 : ℚ)] - mean [(1 : ℚ)] ∧
      (bootstrap_differences scipy0 [(1 : ℚ)] [(2 : ℚ)]).length = n_bootstrap ∧
      n_bootstrap = 1000 ∧
      (∀ it : ℕ,
        (np_choice [(1 : ℚ)] (scipy0.restIdx it)).length = [(1 : ℚ)].length ∧
        (np_choice [(2 : ℚ)] (scipy0.gqlIdx it)).length = [(2 : ℚ)].length ∧
        np_choice [(1 : ℚ)] (scipy0.restIdx it) ⊆ [(1 : ℚ)] ∧
        np_choice [(2 : ℚ)] (scipy0.gqlIdx it) ⊆ [(2 : ℚ)]) ∧
      bootstrap_differences scipy0 [(1 : ℚ)] [(2 : ℚ)] = (List.range n_bootstrap).map fun it =>
        mean (np_choice [(2 : ℚ)] (scipy0.gqlIdx it)) -
          mean (np_choice [(1 : ℚ)] (scipy0.restIdx it))) :=
  ⟨by decide, by decide,
    c7_bootstrap_ci scipy0 [(1 : ℚ)] [(2 : ℚ)] "response_time_ms" (by decide) (by decide)⟩

/- ===================== claims C1, C10 (result document) ===================== -/

/-- C1 as amended: the per-scenario analysis omits both keys of a scenario
whose successful time sample is empty on either side - its result mapping is
exactly the keys of the guarded scenarios, and the loop itself never raises -
but the pooled overall comparisons carry no such guard: when either overall
successful sample is empty, analyze_overall propagates the Mann-Whitney
ValueError (modelled as none) instead of omitting the key. -/
theorem c1_empty_sample_policy (sc : Scipy) (df : List Row)
    (h : overallTime df "REST" = [] ∨ overallTime df "GRAPHQL" = []) :
    analyze_overall sc df = none ∧
    ((analyze_by_scenario sc df).map fun m => m.map Prod.fst) =
      some (scenarioIds.flatMap fun s =>
        if scenarioGate df s then
          [ResKey.scenario_time s, ResKey.scenario_size s] else []) := by
  refine ⟨?_, collectEntries_keys sc df scenarioIds⟩
  unfold analyze_overall
  rw [perform_none_of_empty sc "response_time_ms" h]
  rfl

/-- Witness for C1 (amended) on a dataset whose REST side is empty. -/
theorem c1_empty_sample_policy_witness :
    (overallTime dfGqlOnly "REST" = [] ∨ overallTime dfGqlOnly "GRAPHQL" = []) ∧
    (analyze_overall scipy0 dfGqlOnly = none ∧
     ((analyze_by_scenario scipy0 dfGqlOnly).map fun m => m.map Prod.fst) =
       some (scenarioIds.flatMap fun s =>
         if scenarioGate dfGqlOnly s then
           [ResKey.scenario_time s, ResKey.scenario_size s] else [])) :=
  ⟨Or.inl (by decide), c1_empty_sample_policy scipy0 dfGqlOnly (Or.inl (by decide))⟩

/-- C1 counterexample: on a dataset with one successful REST record and no
GraphQL record, the GraphQL overall sample is empty while the REST one is
not, and analyze_overall does not omit the overall keys - it raises (none):
the claimed skip-and-continue policy does not hold for the pooled
comparisons. -/
theorem c1_overall_empty_counterexample :
    overallTime dfRestOnly "GRAPHQL" = [] ∧
    overallTime dfRestOnly "REST" ≠ [] ∧
    analyze_overall scipy0 dfRestOnly = none := by
  decide

/-- C10: for every dataset and every scenario number, the per-scenario result
mapping contains the time key exactly when it contains the size key: the two
comparisons of a scenario are emitted together or not at all, both gated by
the same guard over the same successful rows. -/
theorem c10_time_size_pairing (sc : Scipy) (df : List Row) (n : ℕ) :
    ∃ m, analyze_by_scenario sc df = some m ∧
      (ResKey.scenario_time n ∈ m.map Prod.fst ↔
        ResKey.scenario_size n ∈ m.map Prod.fst) := by
  obtain ⟨m, hm, hk⟩ := Option.map_eq_some'.mp (collectEntries_keys sc df scenarioIds)
  refine ⟨m, hm, ?_⟩
  rw [hk, time_key_mem, size_key_mem]
